import Mathlib

/-!
Formal model of the FloodSync API layer (`floodsync_api.py`).

The repository is a thin orchestration layer over a remote Earth-observation
backend (Google Earth Engine, accessed through `ee` and `geemap`).  We embed:

* the lazy Earth-Engine query expressions the handlers construct, as an
  inductive syntax (`EEGeometry`, `EEImageCollection`, `EEImage`, ...);
* the remote backend as an oracle (`Backend`): a bundle of functions giving
  the result of each materializing call (`getInfo`, `geemap.ee_to_geojson`,
  `geemap.get_image_tile_url`, `size().getInfo()`), each of which may fail
  with an exception message;
* the two FastAPI handlers `get_countries` and `generate_flood_map` as Lean
  functions over the oracle, following the Python control flow statement by
  statement.  In particular, the whole body of `generate_flood_map` sits in a
  `try` block whose `except Exception as e` clause re-raises
  `HTTPException(status_code=500, detail=str(e))`; since FastAPI's
  `HTTPException` is itself a subclass of `Exception`, the two
  `HTTPException(status_code=400, ...)` raises inside the `try` are caught by
  that clause, so the model routes every internal exception, HTTP or generic,
  through the 500 wrapper, exactly as CPython does.

Numbers crossing the backend boundary (area sums, thresholds) are modelled as
rationals; dates are modelled as integer day ordinals with an injective
rendering `dateStr` standing for `strftime("%Y-%m-%d")`.
-/

/-- GeoJSON payloads are opaque to the orchestration layer; we model them as
their serialized form. -/
abbrev GeoJson := String

/-- Geometry expressions.  The only geometry the handlers build is
`countries.filter(ee.Filter.eq("ADM0_NAME", name)).first().geometry()`. -/
inductive EEGeometry where
  | countryGeometry (name : String)
deriving DecidableEq, Repr

/-- Lazy image-collection expressions, one constructor per `ee` combinator the
handlers use. -/
inductive EEImageCollection where
  | source (name : String)
  | filterBounds (c : EEImageCollection) (g : EEGeometry)
  | filterDate (c : EEImageCollection) (startDate endDate : String)
  | filterEq (c : EEImageCollection) (prop val : String)
  | select (c : EEImageCollection) (band : String)
  | mapNormalizedDifference (c : EEImageCollection) (b1 b2 newName : String)
  | sortBy (c : EEImageCollection) (prop : String) (ascending : Bool)
deriving DecidableEq, Repr

/-- Lazy image expressions, one constructor per `ee` image operation the
handlers use. -/
inductive EEImage where
  | first (c : EEImageCollection)
  | median (c : EEImageCollection)
  | mean (c : EEImageCollection)
  | pixelArea
  | ltConst (i : EEImage) (t : ℚ)
  | gtConst (i : EEImage) (t : ℚ)
  | selfMask (i : EEImage)
  | clip (i : EEImage) (g : EEGeometry)
  | and_ (i j : EEImage)
  | multiply (i j : EEImage)
deriving DecidableEq, Repr

/-- The argument record of a `reduceToVectors` call (the handlers always pass
`reducer=ee.Reducer.countEvery()`, recorded in `reducer`). -/
structure ReduceToVectorsCall where
  image : EEImage
  geometry : EEGeometry
  scale : Nat
  geometryType : String
  eightConnected : Bool
  labelProperty : String
  reducer : String
deriving DecidableEq, Repr

/-- The remote backend, seen from the orchestration layer: one field per kind
of materializing round trip.  `reduceRegionSum img g scale band` is the value
of `img.reduceRegion(reducer=sum, geometry=g, scale=scale, maxPixels=1e10)
.get(band).getInfo()`; the inner `Option` is Python `None` (a `.get` on a band
the reduction dictionary does not contain). -/
structure Backend where
  now : Int
  adm0Names : Except String (List String)
  eeToGeojson : ReduceToVectorsCall → Except String GeoJson
  tileUrl : EEImage → List String → Except String String
  reduceRegionSum : EEImage → EEGeometry → Nat → String → Except String (Option ℚ)
  collectionSize : EEImageCollection → Except String Int

/-- Rendering of a day ordinal as a `"%Y-%m-%d"` date string (injective
encoding; the handlers only thread these strings into filter expressions). -/
def dateStr (d : Int) : String := toString d

/-- Request body of `POST /flood_map` (`FloodMapRequest` pydantic model;
`layer_type` defaults to `"current"` at the HTTP layer). -/
structure FloodMapRequest where
  country_name : String
  start_date : Option String
  end_date : Option String
  layer_type : String
deriving DecidableEq, Repr

/-- Result dictionary assembled by `generate_flood_map`; `message` is absent
(`none`) except on the risk-mode no-data path. -/
structure ResultBody where
  status : String
  layer : String
  geojson : Option GeoJson
  tile_url : Option String
  area_sqkm : Option ℚ
  message : Option String
deriving DecidableEq, Repr

/-- Python exceptions relevant to the handler: FastAPI `HTTPException`s and
everything else (backend errors, `TypeError`, ...). -/
inductive PyExc where
  | httpExc (status : Nat) (detail : String)
  | generic (msg : String)
deriving DecidableEq, Repr

/-- `str(e)`: Starlette's `HTTPException.__str__` renders `"<code>: <detail>"`;
other exceptions carry their message. -/
def PyExc.message : PyExc → String
  | .httpExc s d => toString s ++ ": " ++ d
  | .generic m => m

/-- HTTP outcome of a `/flood_map` call: a 200 with the result body, or an
error status with a `detail` string. -/
inductive Response where
  | ok (body : ResultBody)
  | err (statusCode : Nat) (detail : String)
deriving DecidableEq, Repr

/-- HTTP outcome of a `/countries` call. -/
inductive CountriesResponse where
  | ok (status : String) (countries : List String)
  | err (statusCode : Nat) (detail : String)
deriving DecidableEq, Repr

/-- Python `x or d` on an `Optional[str]`: `None` and `""` are falsy. -/
def pyOr : Option String → String → String
  | none, d => d
  | some s, d => if s = "" then d else s

/-- `(current_date - timedelta(days=30)).strftime("%Y-%m-%d")`. -/
def defaultStartDate (b : Backend) : String := dateStr (b.now - 30)

/-- `current_date.strftime("%Y-%m-%d")`. -/
def defaultEndDate (b : Backend) : String := dateStr b.now

/-- `start_date = request.start_date or (current_date - timedelta(days=30)).strftime(...)`. -/
def resolvedStartDate (b : Backend) (req : FloodMapRequest) : String :=
  pyOr req.start_date (defaultStartDate b)

/-- `end_date = request.end_date or current_date.strftime(...)`. -/
def resolvedEndDate (b : Backend) (req : FloodMapRequest) : String :=
  pyOr req.end_date (defaultEndDate b)

/-- Sentinel-1 collection of the `current` branch:
`ee.ImageCollection("COPERNICUS/S1_GRD").filterBounds(geom).filterDate(sd, ed)
.filter(ee.Filter.eq("instrumentMode", "IW")).select("VV")`. -/
def currentS1Query (geom : EEGeometry) (sd ed : String) : EEImageCollection :=
  .select (.filterEq (.filterDate (.filterBounds (.source "COPERNICUS/S1_GRD") geom) sd ed)
    "instrumentMode" "IW") "VV"

/-- Water mask of the `current` branch: latest scene thresholded below -15,
self-masked, clipped. -/
def currentWaterImage (geom : EEGeometry) (sd ed : String) : EEImage :=
  .clip (.selfMask (.ltConst
    (.first (.sortBy (currentS1Query geom sd ed) "system:time_start" false)) (-15))) geom

/-- Landsat NDWI collection of the `historical` branch; note the hard-coded
date window `"2019-11-01"`..`"2019-11-12"`. -/
def historicalLandsatQuery (geom : EEGeometry) : EEImageCollection :=
  .mapNormalizedDifference
    (.filterDate (.filterBounds (.source "LANDSAT/LC08/C02/T1_L2") geom)
      "2019-11-01" "2019-11-12")
    "SR_B5" "SR_B3" "NDWI"

/-- Historical flood mask: median NDWI thresholded above 0.3, self-masked,
clipped. -/
def historicalFloodImage (geom : EEGeometry) : EEImage :=
  .clip (.selfMask (.gtConst (.median (historicalLandsatQuery geom)) (3 / 10))) geom

/-- GPM rainfall collection of the `risk` branch. -/
def riskRainfallQuery (geom : EEGeometry) (sd ed : String) : EEImageCollection :=
  .select (.filterDate (.filterBounds (.source "NASA/GPM_L3/IMERG_V06") geom) sd ed)
    "precipitationCal"

/-- Risk mask: mean rainfall above 50 ANDed with the historical flood mask,
self-masked, clipped. -/
def riskFloodImage (geom : EEGeometry) (sd ed : String) : EEImage :=
  .clip (.selfMask (.and_
    (.gtConst (.mean (riskRainfallQuery geom sd ed)) 50)
    (.gtConst (.median (historicalLandsatQuery geom)) (3 / 10)))) geom

/-- The `layer_type == "current"` branch: vectorize, tile URL, area sum with
band key `"VV"`, divide by 1e6; a Python `None` raw value would make the
division raise `TypeError`. -/
def currentBranch (b : Backend) (geom : EEGeometry) (sd ed layer : String) :
    Except PyExc ResultBody :=
  let water := currentWaterImage geom sd ed
  match b.eeToGeojson ⟨water, geom, 30, "polygon", false, "flood", "countEvery"⟩ with
  | .error m => .error (.generic m)
  | .ok geojson =>
    match b.tileUrl water ["blue"] with
    | .error m => .error (.generic m)
    | .ok tile_url =>
      match b.reduceRegionSum (.multiply water .pixelArea) geom 30 "VV" with
      | .error m => .error (.generic m)
      | .ok none => .error (.generic "TypeError: unsupported operand type for division")
      | .ok (some raw) =>
        .ok { status := "success", layer := layer, geojson := some geojson,
              tile_url := some tile_url, area_sqkm := some (raw / 1000000), message := none }

/-- The `layer_type == "historical"` branch (band key `"NDWI"`, cyan palette);
it never reads the request dates. -/
def historicalBranch (b : Backend) (geom : EEGeometry) (layer : String) :
    Except PyExc ResultBody :=
  let flood := historicalFloodImage geom
  match b.eeToGeojson ⟨flood, geom, 30, "polygon", false, "flood", "countEvery"⟩ with
  | .error m => .error (.generic m)
  | .ok geojson =>
    match b.tileUrl flood ["cyan"] with
    | .error m => .error (.generic m)
    | .ok tile_url =>
      match b.reduceRegionSum (.multiply flood .pixelArea) geom 30 "NDWI" with
      | .error m => .error (.generic m)
      | .ok none => .error (.generic "TypeError: unsupported operand type for division")
      | .ok (some raw) =>
        .ok { status := "success", layer := layer, geojson := some geojson,
              tile_url := some tile_url, area_sqkm := some (raw / 1000000), message := none }

/-- The `layer_type == "risk"` branch: first materializes
`rainfall_collection.size().getInfo()`; on a positive count it proceeds like
the other branches (band key `"NDWI"`, red palette), otherwise it returns the
structured no-data error result. -/
def riskBranch (b : Backend) (geom : EEGeometry) (sd ed layer : String) :
    Except PyExc ResultBody :=
  match b.collectionSize (riskRainfallQuery geom sd ed) with
  | .error m => .error (.generic m)
  | .ok sz =>
    if sz > 0 then
      let flood_risk := riskFloodImage geom sd ed
      match b.eeToGeojson ⟨flood_risk, geom, 30, "polygon", false, "risk", "countEvery"⟩ with
      | .error m => .error (.generic m)
      | .ok geojson =>
        match b.tileUrl flood_risk ["red"] with
        | .error m => .error (.generic m)
        | .ok tile_url =>
          match b.reduceRegionSum (.multiply flood_risk .pixelArea) geom 30 "NDWI" with
          | .error m => .error (.generic m)
          | .ok none => .error (.generic "TypeError: unsupported operand type for division")
          | .ok (some raw) =>
            .ok { status := "success", layer := layer, geojson := some geojson,
                  tile_url := some tile_url, area_sqkm := some (raw / 1000000), message := none }
    else
      .ok { status := "error", layer := layer, geojson := none, tile_url := none,
            area_sqkm := none,
            message := some "No GPM rainfall data available for this period and area" }

/-- Body of the `try` block of `generate_flood_map`: input validation, date
defaulting, country geometry, dispatch on `layer_type`.  Both 400s are raised
as exceptions inside this block. -/
def floodMapCore (b : Backend) (req : FloodMapRequest) : Except PyExc ResultBody :=
  if req.country_name = "" then
    .error (.httpExc 400 "Country name is required")
  else
    let sd := resolvedStartDate b req
    let ed := resolvedEndDate b req
    let geom := EEGeometry.countryGeometry req.country_name
    if req.layer_type = "current" then currentBranch b geom sd ed req.layer_type
    else if req.layer_type = "historical" then historicalBranch b geom req.layer_type
    else if req.layer_type = "risk" then riskBranch b geom sd ed req.layer_type
    else .error (.httpExc 400
      "Invalid layer_type. Use \x27current\x27, \x27historical\x27, or \x27risk\x27")

/-- `POST /flood_map`.  The `except Exception as e` clause catches every
exception raised in the `try` block, including the two `HTTPException(400)`s
(FastAPI's `HTTPException` subclasses `Exception`), and re-raises
`HTTPException(status_code=500, detail=str(e))`. -/
def generate_flood_map (b : Backend) (req : FloodMapRequest) : Response :=
  match floodMapCore b req with
  | .ok body => .ok body
  | .error e => .err 500 e.message

/-- `GET /countries`:
`countries.aggregate_array("ADM0_NAME").distinct().sort().getInfo()`.  The
oracle supplies the materialized aggregate list; `distinct` and `sort` are the
Earth-Engine list operators (remove duplicates; sort ascending), modelled by
`List.dedup` and an ascending `insertionSort`. -/
def get_countries (b : Backend) : CountriesResponse :=
  match b.adm0Names with
  | .ok names => .ok "success" (List.insertionSort (· ≤ ·) names.dedup)
  | .error m => .err 500 m

/-- A value is a region-reduction area sum when it is the sum of the (always
non-negative) pixel areas contributing to the masked region. -/
def IsRegionSum (raw : ℚ) : Prop :=
  ∃ areas : List ℚ, (∀ x ∈ areas, 0 ≤ x) ∧ raw = areas.sum

/-- Concrete oracle used to witness the theorems: every materializing call
succeeds, the raw area sum is 2,000,000, and the rainfall collection is empty. -/
def testBackend : Backend where
  now := 20000
  adm0Names := .ok ["Kenya", "Uganda", "Kenya"]
  eeToGeojson := fun _ => .ok "geo"
  tileUrl := fun _ _ => .ok "tiles"
  reduceRegionSum := fun _ _ _ _ => .ok (some 2000000)
  collectionSize := fun _ => .ok 0

/-- Variant oracle whose rainfall collection is non-empty (risk success path). -/
def rainyBackend : Backend where
  now := 20000
  adm0Names := .ok []
  eeToGeojson := fun _ => .ok "geo"
  tileUrl := fun _ _ => .ok "tiles"
  reduceRegionSum := fun _ _ _ _ => .ok (some 2000000)
  collectionSize := fun _ => .ok 5

/-- Inversion: a successful current-branch result records the `"VV"` area sum
divided by 1e6 and populates every field. -/
theorem currentBranch_ok_inv {b : Backend} {geom : EEGeometry} {sd ed layer : String}
    {body : ResultBody} (h : currentBranch b geom sd ed layer = .ok body) :
    ∃ g t raw,
      b.reduceRegionSum (.multiply (currentWaterImage geom sd ed) .pixelArea) geom 30 "VV"
        = .ok (some raw) ∧
      body = ⟨"success", layer, some g, some t, some (raw / 1000000), none⟩ := by
  unfold currentBranch at h
  dsimp only at h
  split at h
  · exact Except.noConfusion h
  split at h
  · exact Except.noConfusion h
  split at h
  · exact Except.noConfusion h
  · exact Except.noConfusion h
  next raw hr =>
    injection h with h
    exact ⟨_, _, raw, hr, h.symm⟩

/-- Inversion: a successful historical-branch result records the `"NDWI"` area
sum divided by 1e6 and populates every field. -/
theorem historicalBranch_ok_inv {b : Backend} {geom : EEGeometry} {layer : String}
    {body : ResultBody} (h : historicalBranch b geom layer = .ok body) :
    ∃ g t raw,
      b.reduceRegionSum (.multiply (historicalFloodImage geom) .pixelArea) geom 30 "NDWI"
        = .ok (some raw) ∧
      body = ⟨"success", layer, some g, some t, some (raw / 1000000), none⟩ := by
  unfold historicalBranch at h
  dsimp only at h
  split at h
  · exact Except.noConfusion h
  split at h
  · exact Except.noConfusion h
  split at h
  · exact Except.noConfusion h
  · exact Except.noConfusion h
  next raw hr =>
    injection h with h
    exact ⟨_, _, raw, hr, h.symm⟩

/-- Inversion: a successful risk-branch result is either the populated success
shape built from the `"NDWI"` area sum, or the structured no-data error
result. -/
theorem riskBranch_ok_inv {b : Backend} {geom : EEGeometry} {sd ed layer : String}
    {body : ResultBody} (h : riskBranch b geom sd ed layer = .ok body) :
    (∃ g t raw,
      b.reduceRegionSum (.multiply (riskFloodImage geom sd ed) .pixelArea) geom 30 "NDWI"
        = .ok (some raw) ∧
      body = ⟨"success", layer, some g, some t, some (raw / 1000000), none⟩) ∨
    body = ⟨"error", layer, none, none, none,
            some "No GPM rainfall data available for this period and area"⟩ := by
  unfold riskBranch at h
  split at h
  · exact Except.noConfusion h
  split at h
  · dsimp only at h
    split at h
    · exact Except.noConfusion h
    split at h
    · exact Except.noConfusion h
    split at h
    · exact Except.noConfusion h
    · exact Except.noConfusion h
    next raw hr =>
      injection h with h
      exact .inl ⟨_, _, raw, hr, h.symm⟩
  · injection h with h
    exact .inr h.symm

/-- Inversion for the whole `try` body: a returned result body echoes the
request's `layer_type` and is either the fully populated success shape, with
`area_sqkm` tied to a backend region reduction at scale 30, or the risk-mode
no-data error shape. -/
theorem floodMapCore_ok_inv {b : Backend} {req : FloodMapRequest} {body : ResultBody}
    (h : floodMapCore b req = .ok body) :
    body.layer = req.layer_type ∧
    ((∃ g t img band raw,
        b.reduceRegionSum img (.countryGeometry req.country_name) 30 band = .ok (some raw) ∧
        body.status = "success" ∧ body.geojson = some g ∧ body.tile_url = some t ∧
        body.area_sqkm = some (raw / 1000000)) ∨
      (body.status = "error" ∧ body.geojson = none ∧ body.tile_url = none ∧
        body.area_sqkm = none ∧
        body.message = some "No GPM rainfall data available for this period and area")) := by
  unfold floodMapCore at h
  split at h
  · exact Except.noConfusion h
  dsimp only at h
  split at h
  · obtain ⟨g, t, raw, hr, hb⟩ := currentBranch_ok_inv h
    subst hb
    exact ⟨rfl, .inl ⟨g, t, _, _, raw, hr, rfl, rfl, rfl, rfl⟩⟩
  split at h
  · obtain ⟨g, t, raw, hr, hb⟩ := historicalBranch_ok_inv h
    subst hb
    exact ⟨rfl, .inl ⟨g, t, _, _, raw, hr, rfl, rfl, rfl, rfl⟩⟩
  split at h
  · rcases riskBranch_ok_inv h with ⟨g, t, raw, hr, hb⟩ | hb
    · subst hb
      exact ⟨rfl, .inl ⟨g, t, _, _, raw, hr, rfl, rfl, rfl, rfl⟩⟩
    · subst hb
      exact ⟨rfl, .inr ⟨rfl, rfl, rfl, rfl, rfl⟩⟩
  · exact Except.noConfusion h

/-- C1: the claim says a POST with empty `country_name` yields HTTP 400.  On
the code it does not: the `HTTPException(status_code=400)` raised at line 39
is caught by the blanket `except Exception` at line 193 (FastAPI's
`HTTPException` subclasses `Exception`) and re-raised as
`HTTPException(500, str(e))`, so every such request yields HTTP 500 — with
the stringified 400 as its detail — regardless of the other fields and of the
backend. -/
theorem c1_empty_country_name_gets_500 :
    ∀ (b : Backend) (sd ed : Option String) (lt : String),
      generate_flood_map b ⟨"", sd, ed, lt⟩ =
        Response.err 500 "400: Country name is required" := by
  intro b sd ed lt
  rfl

/-- C2: the claim says an unrecognized `layer_type` yields HTTP 400.  As with
C1, the `HTTPException(400)` raised at line 189 is swallowed by the blanket
`except Exception` clause and re-raised as a 500 carrying the stringified 400
as its detail. -/
theorem c2_invalid_layer_type_gets_500 :
    ∀ (b : Backend) (name : String) (sd ed : Option String) (lt : String),
      name ≠ "" → lt ≠ "current" → lt ≠ "historical" → lt ≠ "risk" →
      generate_flood_map b ⟨name, sd, ed, lt⟩ =
        Response.err 500
          "400: Invalid layer_type. Use \x27current\x27, \x27historical\x27, or \x27risk\x27" := by
  intro b name sd ed lt h0 h1 h2 h3
  unfold generate_flood_map floodMapCore
  rw [if_neg h0]
  dsimp only
  rw [if_neg h1, if_neg h2, if_neg h3]
  rfl

/-- Witness for C2 at a concrete request. -/
theorem c2_invalid_layer_type_gets_500_witness :
    generate_flood_map testBackend ⟨"Kenya", none, none, "bogus"⟩ =
      Response.err 500
        "400: Invalid layer_type. Use \x27current\x27, \x27historical\x27, or \x27risk\x27" :=
  c2_invalid_layer_type_gets_500 testBackend "Kenya" none none "bogus"
    (by decide) (by decide) (by decide) (by decide)

/-- C6: historical mode analyzes the fixed Landsat window
2019-11-01..2019-11-12; the response is literally independent of the
request-supplied dates, and the constructed collection expression carries the
two hard-coded date strings. -/
theorem c6_historical_ignores_request_dates :
    ∀ (b : Backend) (name : String) (s1 e1 s2 e2 : Option String),
      generate_flood_map b ⟨name, s1, e1, "historical"⟩ =
        generate_flood_map b ⟨name, s2, e2, "historical"⟩ ∧
      historicalLandsatQuery (.countryGeometry name) =
        .mapNormalizedDifference
          (.filterDate (.filterBounds (.source "LANDSAT/LC08/C02/T1_L2")
            (.countryGeometry name)) "2019-11-01" "2019-11-12")
          "SR_B5" "SR_B3" "NDWI" := by
  intro b name s1 e1 s2 e2
  exact ⟨rfl, rfl⟩

/-- C9: a `start_date` or `end_date` equal to `""` behaves exactly like an
omitted one — Python's `or` treats both `None` and `""` as falsy — so the
handler result is unchanged and the corresponding default is used. -/
theorem c9_empty_date_string_is_omitted :
    ∀ (b : Backend) (name : String) (d : Option String) (lt : String),
      generate_flood_map b ⟨name, some "", d, lt⟩ =
        generate_flood_map b ⟨name, none, d, lt⟩ ∧
      generate_flood_map b ⟨name, d, some "", lt⟩ =
        generate_flood_map b ⟨name, d, none, lt⟩ ∧
      resolvedStartDate b ⟨name, some "", d, lt⟩ = defaultStartDate b ∧
      resolvedEndDate b ⟨name, d, some "", lt⟩ = defaultEndDate b := by
  intro b name d lt
  exact ⟨rfl, rfl, rfl, rfl⟩

/-- C10: every 200 response of `/flood_map` echoes the request's `layer_type`
verbatim in its `layer` field — the result dictionary sets
`"layer": request.layer_type` once and never rewrites it, also on the
risk-mode no-data path. -/
theorem c10_layer_echoes_request :
    ∀ (b : Backend) (req : FloodMapRequest) (body : ResultBody),
      generate_flood_map b req = Response.ok body →
      body.layer = req.layer_type := by
  intro b req body h
  unfold generate_flood_map at h
  split at h
  next body' heq =>
    injection h with h
    subst h
    exact (floodMapCore_ok_inv heq).1
  next => exact Response.noConfusion h

/-- Witness for C10: the risk-mode no-data 200 response of the test oracle
carries `layer = "risk"`. -/
theorem c10_layer_echoes_request_witness :
    (⟨"error", "risk", none, none, none,
      some "No GPM rainfall data available for this period and area"⟩ : ResultBody).layer
      = "risk" :=
  c10_layer_echoes_request testBackend ⟨"Kenya", none, none, "risk"⟩ _ rfl

/-- C4: in every 200 response of `/flood_map`, `status = "success"` implies
`geojson`, `tile_url` and `area_sqkm` are all populated, and
`status = "error"` implies all three are null. -/
theorem c4_success_error_field_invariant :
    ∀ (b : Backend) (req : FloodMapRequest) (body : ResultBody),
      generate_flood_map b req = Response.ok body →
      (body.status = "success" →
        body.geojson ≠ none ∧ body.tile_url ≠ none ∧ body.area_sqkm ≠ none) ∧
      (body.status = "error" →
        body.geojson = none ∧ body.tile_url = none ∧ body.area_sqkm = none) := by
  intro b req body h
  unfold generate_flood_map at h
  split at h
  next body' heq =>
    injection h with h
    subst h
    rcases (floodMapCore_ok_inv heq).2 with
      ⟨g, t, img, band, raw, hr, hs, hg, ht, ha⟩ | ⟨hs, hg, ht, ha, hm⟩
    · refine ⟨fun _ => ⟨?_, ?_, ?_⟩, fun he => ?_⟩
      · rw [hg]; exact fun hx => Option.noConfusion hx
      · rw [ht]; exact fun hx => Option.noConfusion hx
      · rw [ha]; exact fun hx => Option.noConfusion hx
      · rw [hs] at he; exact absurd he (by decide)
    · refine ⟨fun he => ?_, fun _ => ⟨hg, ht, ha⟩⟩
      rw [hs] at he; exact absurd he (by decide)
  next => exact Response.noConfusion h

/-- Witness for C4 on the current-mode success response of the test oracle. -/
theorem c4_success_error_field_invariant_witness :
    ((⟨"success", "current", some "geo", some "tiles", some (2000000 / 1000000), none⟩ :
        ResultBody).status = "success" →
      (⟨"success", "current", some "geo", some "tiles", some (2000000 / 1000000), none⟩ :
        ResultBody).geojson ≠ none ∧
      (⟨"success", "current", some "geo", some "tiles", some (2000000 / 1000000), none⟩ :
        ResultBody).tile_url ≠ none ∧
      (⟨"success", "current", some "geo", some "tiles", some (2000000 / 1000000), none⟩ :
        ResultBody).area_sqkm ≠ none) ∧
    ((⟨"success", "current", some "geo", some "tiles", some (2000000 / 1000000), none⟩ :
        ResultBody).status = "error" →
      (⟨"success", "current", some "geo", some "tiles", some (2000000 / 1000000), none⟩ :
        ResultBody).geojson = none ∧
      (⟨"success", "current", some "geo", some "tiles", some (2000000 / 1000000), none⟩ :
        ResultBody).tile_url = none ∧
      (⟨"success", "current", some "geo", some "tiles", some (2000000 / 1000000), none⟩ :
        ResultBody).area_sqkm = none) :=
  c4_success_error_field_invariant testBackend ⟨"Kenya", none, none, "current"⟩ _ rfl

/-- C5: a risk-mode request over a window with zero precipitation
observations gets a 200 whose body has `status = "error"` and a non-empty
`message`, not an HTTP error. -/
theorem c5_risk_no_data_structured_error :
    ∀ (b : Backend) (req : FloodMapRequest),
      req.country_name ≠ "" →
      req.layer_type = "risk" →
      b.collectionSize (riskRainfallQuery (.countryGeometry req.country_name)
        (resolvedStartDate b req) (resolvedEndDate b req)) = .ok 0 →
      generate_flood_map b req = Response.ok
        ⟨"error", "risk", none, none, none,
         some "No GPM rainfall data available for this period and area"⟩ ∧
      "No GPM rainfall data available for this period and area" ≠ "" := by
  intro b req h0 hl hsz
  refine ⟨?_, by decide⟩
  unfold generate_flood_map floodMapCore
  rw [if_neg h0]
  dsimp only
  rw [hl]
  rw [if_neg (by decide : ("risk" : String) ≠ "current"),
      if_neg (by decide : ("risk" : String) ≠ "historical"),
      if_pos rfl]
  unfold riskBranch
  rw [hsz]
  rfl

/-- Witness for C5 at a concrete request against the empty-rainfall oracle. -/
theorem c5_risk_no_data_structured_error_witness :
    generate_flood_map testBackend ⟨"Kenya", none, none, "risk"⟩ = Response.ok
      ⟨"error", "risk", none, none, none,
       some "No GPM rainfall data available for this period and area"⟩ ∧
    "No GPM rainfall data available for this period and area" ≠ "" :=
  c5_risk_no_data_structured_error testBackend ⟨"Kenya", none, none, "risk"⟩
    (by decide) rfl rfl

/-- C7: when both dates are omitted the handler uses the window from
`now - 30 days` to `now` — exactly 30 days, ending at the current date. -/
theorem c7_default_window_thirty_days :
    ∀ (b : Backend) (req : FloodMapRequest),
      req.start_date = none → req.end_date = none →
      resolvedStartDate b req = dateStr (b.now - 30) ∧
      resolvedEndDate b req = dateStr b.now ∧
      b.now - (b.now - 30) = 30 := by
  intro b req h1 h2
  refine ⟨?_, ?_, by ring⟩
  · rw [resolvedStartDate, h1]; rfl
  · rw [resolvedEndDate, h2]; rfl

/-- Witness for C7 at a concrete dateless request. -/
theorem c7_default_window_thirty_days_witness :
    resolvedStartDate testBackend ⟨"Kenya", none, none, "current"⟩
      = dateStr (testBackend.now - 30) ∧
    resolvedEndDate testBackend ⟨"Kenya", none, none, "current"⟩ = dateStr testBackend.now ∧
    testBackend.now - (testBackend.now - 30) = 30 :=
  c7_default_window_thirty_days testBackend ⟨"Kenya", none, none, "current"⟩ rfl rfl

/-- C8: a successful `/countries` response carries the aggregate list with
duplicates removed and sorted ascending, hence sorted and duplicate-free. -/
theorem c8_countries_sorted_nodup :
    ∀ (b : Backend) (names : List String),
      b.adm0Names = .ok names →
      ∃ out, get_countries b = .ok "success" out ∧
        out.Sorted (· ≤ ·) ∧ out.Nodup := by
  intro b names h
  refine ⟨List.insertionSort (· ≤ ·) names.dedup, ?_, ?_, ?_⟩
  · unfold get_countries
    rw [h]
  · exact List.sorted_insertionSort _ _
  · exact (List.perm_insertionSort _ _).nodup_iff.mpr (List.nodup_dedup names)

/-- Witness for C8 on a concrete aggregate list containing a duplicate. -/
theorem c8_countries_sorted_nodup_witness :
    ∃ out, get_countries testBackend = .ok "success" out ∧
      out.Sorted (· ≤ ·) ∧ out.Nodup :=
  c8_countries_sorted_nodup testBackend ["Kenya", "Uganda", "Kenya"] rfl

/-- C3: whenever a flood-map result carries an `area_sqkm` and the backend's
region reductions report genuine area sums (sums of non-negative pixel
areas), the carried value is non-negative and equals the raw reported sum
divided by 1,000,000. -/
theorem c3_area_sqkm_nonneg_scaled :
    ∀ (b : Backend) (req : FloodMapRequest) (body : ResultBody) (a : ℚ),
      (∀ img g s band raw,
        b.reduceRegionSum img g s band = .ok (some raw) → IsRegionSum raw) →
      generate_flood_map b req = Response.ok body →
      body.area_sqkm = some a →
      0 ≤ a ∧ ∃ img g band raw,
        b.reduceRegionSum img g 30 band = .ok (some raw) ∧ a = raw / 1000000 := by
  intro b req body a hsum h ha
  unfold generate_flood_map at h
  split at h
  next body' heq =>
    injection h with h
    subst h
    rcases (floodMapCore_ok_inv heq).2 with
      ⟨g, t, img, band, raw, hr, _, _, _, ha'⟩ | ⟨_, _, _, hnone, _⟩
    · rw [ha'] at ha
      injection ha with ha
      subst ha
      obtain ⟨areas, hpos, hval⟩ := hsum _ _ _ _ _ hr
      refine ⟨?_, img, _, band, raw, hr, rfl⟩
      have hraw : (0 : ℚ) ≤ raw := hval ▸ List.sum_nonneg hpos
      exact div_nonneg hraw (by norm_num)
    · rw [hnone] at ha
      exact Option.noConfusion ha
  next => exact Response.noConfusion h

/-- Witness for C3 on the current-mode success response of the test oracle,
whose every region reduction reports the sum of the singleton pixel-area list
`[2000000]`. -/
theorem c3_area_sqkm_nonneg_scaled_witness :
    0 ≤ (2000000 / 1000000 : ℚ) ∧ ∃ img g band raw,
      testBackend.reduceRegionSum img g 30 band = .ok (some raw) ∧
      (2000000 / 1000000 : ℚ) = raw / 1000000 :=
  c3_area_sqkm_nonneg_scaled testBackend ⟨"Kenya", none, none, "current"⟩
    ⟨"success", "current", some "geo", some "tiles", some (2000000 / 1000000), none⟩
    (2000000 / 1000000)
    (fun img g s band raw hr => by
      simp only [testBackend] at hr
      injection hr with hr
      injection hr with hr
      refine ⟨[2000000], ?_, ?_⟩
      · intro x hx
        rw [List.mem_singleton] at hx
        subst hx
        norm_num
      · rw [← hr]
        simp)
    rfl rfl
